import Mathlib

/-!
# Verification of the propply compliance-report pipeline

Shallow embedding of the identifier-resolution, multi-strategy fetch and
risk-scoring logic of `src/python/generate_report.py` (NYC pipeline, together
with the `get_data` wrapper of `src/python/NYC_data.py`) and of the
Philadelphia compliance scorer `_calculate_enhanced_compliance_score` /
`_categorize_violation_risk` of `src/philly.py`.

Conventions used throughout:
* Python strings that may be `None` are `Option String`; Python truthiness of
  such a value (`if s:`) is `truthy` below (false for `None` and `""`).
* The registry network is an oracle `Oracle : String → String → Except String
  (List NYCRecord)`; `Except.error` models a raised exception, which the
  per-strategy `try/except` blocks of the source catch.
* Records are modelled by the single field the pipeline logic inspects,
  the record-level `bin`; all other record fields are never looked at by the
  code under verification.
* Wall-clock-dependent helpers of `philly.py` (`_is_recent_permit`,
  `_is_expired_certification`) are abstracted as boolean-predicate
  parameters of the scorer, since their results depend on `datetime.now()`.
* The uncaught `AttributeError` that `identifiers.get('borough', '').upper()`
  (generate_report.py line 203) raises when the resolver stored `None` under
  the always-present `borough` key is modelled as an `Except.error` that
  propagates out of `get_comprehensive_compliance_data` and out of `main`.
-/

/-- Python truthiness of an optional string: `None` and `""` are falsy. -/
def truthy : Option String → Bool
  | none => false
  | some s => s != ""

/-!
String primitives are re-implemented over `List Char` by structural
recursion (the library's `String.replace`/`String.map`/`String.trim` are
defined by well-founded recursion on byte positions, which the kernel cannot
evaluate); each matches the Python string method it is named for.
-/

/-- Python `s.replace(c, '')` for a one-character pattern and empty
replacement: remove every occurrence of the character. -/
def charsRemove (c : Char) : List Char → List Char
  | [] => []
  | a :: rest => if a == c then charsRemove c rest else a :: charsRemove c rest

/-- `s.replace(c, '')` on strings, one-character pattern. -/
def strRemove (c : Char) (s : String) : String := String.mk (charsRemove c s.toList)

/-- Python `s.lower()` (the strings involved are ASCII). -/
def strLower (s : String) : String := String.mk (s.toList.map Char.toLower)

/-- Python `s.upper()` (the strings involved are ASCII). -/
def strUpper (s : String) : String := String.mk (s.toList.map Char.toUpper)

/-- Whitespace removed by Python's `str.strip()`. -/
def isPySpace (c : Char) : Bool :=
  c == ' ' || c == '\t' || c == '\n' || c == '\r' || c == '\x0b' || c == '\x0c'

/-- Python `s.strip()`. -/
def strStrip (s : String) : String :=
  String.mk (((s.toList.dropWhile isPySpace).reverse.dropWhile isPySpace).reverse)

/-- `normalize_house_number` of generate_report.py: `None`/empty gives `None`,
otherwise remove hyphens and spaces and lowercase. -/
def normalize_house_number : Option String → Option String
  | none => none
  | some h =>
      if h == "" then none
      else some (strLower (strRemove ' ' (strRemove '-' h)))

/-- Characters matched by the regex class `[\d-]` of `extract_house_number`. -/
def isDigitOrHyphen (c : Char) : Bool := c.isDigit || c == '-'

/-- `extract_house_number` of generate_report.py: the leading run of digits
and hyphens of the stripped address, `None` when that run is empty. -/
def extract_house_number (address : String) : Option String :=
  let cs := (strStrip address).toList.takeWhile isDigitOrHyphen
  if cs.isEmpty then none else some (String.mk cs)

/-- One geocoder feature. The nested `properties` / `addendum.pad` JSON
levels of the GeoSearch response are flattened: `bin` and `bbl` stand for
`properties.addendum.pad.bin` / `.bbl`. -/
structure Feature where
  housenumber : Option String
  street : Option String
  borough : Option String
  bin : Option String
  bbl : Option String
deriving DecidableEq, Repr

/-- The candidate's normalized house number:
`normalize_house_number(properties.get('housenumber', ''))`. -/
def apiNorm (f : Feature) : Option String :=
  normalize_house_number (some (f.housenumber.getD ""))

/-- The match condition of the candidate loop of `get_property_identifiers`:
`input_normalized and api_normalized and input_normalized == api_normalized`. -/
def matchCond (inputNorm : Option String) (f : Feature) : Bool :=
  truthy inputNorm && truthy (apiNorm f) && (inputNorm == apiNorm f)

/-- The identifier bundle returned by `get_property_identifiers`. -/
structure Identifiers where
  bin : Option String
  bbl : Option String
  borough : Option String
  block : Option String
  lot : Option String
  address : String
deriving DecidableEq, Repr

/-- Python `s.lstrip('0')`. -/
def lstrip0 (s : String) : String :=
  String.mk (s.toList.dropWhile (fun c => c == '0'))

/-- Python slice `s[a:b]`. -/
def strSlice (s : String) (a b : Nat) : String :=
  String.mk ((s.toList.drop a).take (b - a))

/-- Python slice `s[a:]`. -/
def strDrop (s : String) (a : Nat) : String :=
  String.mk (s.toList.drop a)

/-- Building the identifier bundle from the chosen feature: the tail of
`get_property_identifiers` (bbl/block/lot extraction and result dict). -/
def featureToIdentifiers (f : Feature) : Identifiers :=
  let bbl := f.bbl
  let blockLot : Option String × Option String :=
    match bbl with
    | none => (none, none)
    | some b =>
        if b != "" && decide (b.length ≥ 10) then
          (some (lstrip0 (strSlice b 1 6)), some (lstrip0 (strDrop b 6)))
        else (none, none)
  { bin := f.bin
    bbl := bbl
    borough := f.borough
    block := blockLot.1
    lot := blockLot.2
    address := strStrip (f.housenumber.getD "" ++ " " ++ f.street.getD "") }

/-- `get_property_identifiers` of generate_report.py, with the already-parsed
geocoder feature list as input (the HTTP call is outside the model): pick the
first candidate whose normalized house number matches the input's, otherwise
fall back to the first-ranked candidate; `None` when the feature list is
empty. -/
def get_property_identifiers (address : String) (features : List Feature) :
    Option Identifiers :=
  match features with
  | [] => none
  | f0 :: _ =>
      let inputNorm := normalize_house_number (extract_house_number address)
      let best := (features.find? (matchCond inputNorm)).getD f0
      some (featureToIdentifiers best)

/-- A registry record; the record-level `bin` (`v.get('bin')`) is the only
field the pipeline logic inspects. -/
structure NYCRecord where
  bin : Option String
deriving DecidableEq, Repr

/-- The registry transport: dataset key and where clause to records, with
`Except.error` standing for a raised exception. -/
def Oracle := String → String → Except String (List NYCRecord)

/-- `NYCOpenDataClient.get_data` of NYC_data.py: transport failures are
caught inside and yield an empty list (`except ...: return []`; the
`data if data else []` branch is the identity on lists). -/
def get_data (transport : Oracle) (ds w : String) : List NYCRecord :=
  match transport ds w with
  | Except.ok d => d
  | Except.error _ => []

/-- The oracle that generate_report.py actually sees when going through
`NYCOpenDataClient.get_data`: never an exception, transport failures already
mapped to `[]`. -/
def mkQuery (transport : Oracle) : Oracle :=
  fun ds w => Except.ok (get_data transport ds w)

/-- The record-level BIN cross-validation filter of the HPD/DOB strategy
loops: `[v for v in data if v.get('bin') == bin_num]`. -/
def binFilter (binNum : Option String) (data : List NYCRecord) :
    List NYCRecord :=
  data.filter (fun r => r.bin == binNum)

/-- The HPD/DOB strategy loop of `get_comprehensive_compliance_data`
(lines 136-151 and 161-176 are textually identical up to the dataset key):
try each `(name, where)` strategy in order; an exception or an empty result
advances to the next strategy; a non-empty result is BIN-filtered when
`bin_num` is truthy, an emptied filter result advances (`continue`), and the
first surviving result is returned (`break`). The second component is the
trace of strategy names whose query was issued. -/
def stratLoop (q : Oracle) (ds : String) (binNum : Option String) :
    List (String × String) → List NYCRecord × List String
  | [] => ([], [])
  | (name, w) :: rest =>
      match q ds w with
      | Except.error _ =>
          let r := stratLoop q ds binNum rest
          (r.1, name :: r.2)
      | Except.ok data =>
          if data.isEmpty then
            let r := stratLoop q ds binNum rest
            (r.1, name :: r.2)
          else if truthy binNum then
            let filtered := binFilter binNum data
            if filtered.isEmpty then
              let r := stratLoop q ds binNum rest
              (r.1, name :: r.2)
            else (filtered, [name])
          else (data, [name])

/-- The electrical-permits strategy loop (lines 207-216): identical to
`stratLoop` but with no record-level BIN validation. -/
def elecLoop (q : Oracle) (ds : String) :
    List (String × String) → List NYCRecord × List String
  | [] => ([], [])
  | (name, w) :: rest =>
      match q ds w with
      | Except.error _ =>
          let r := elecLoop q ds rest
          (r.1, name :: r.2)
      | Except.ok data =>
          if data.isEmpty then
            let r := elecLoop q ds rest
            (r.1, name :: r.2)
          else (data, [name])

/-- HPD strategies (lines 130-134): BIN first, then BBL, each only when its
key is truthy. -/
def hpdStrategies (ids : Identifiers) : List (String × String) :=
  (if truthy ids.bin then
    [("BIN", "bin = '" ++ ids.bin.getD "" ++ "' AND violationstatus = 'Open'")]
   else []) ++
  (if truthy ids.bbl then
    [("BBL", "bbl = '" ++ ids.bbl.getD "" ++ "' AND violationstatus = 'Open'")]
   else [])

/-- DOB strategies (lines 155-159). -/
def dobStrategies (ids : Identifiers) : List (String × String) :=
  (if truthy ids.bin then
    [("BIN", "bin = '" ++ ids.bin.getD "" ++ "' AND violation_category LIKE '%ACTIVE%'")]
   else []) ++
  (if truthy ids.bbl then
    [("BBL", "bbl = '" ++ ids.bbl.getD "" ++ "' AND violation_category LIKE '%ACTIVE%'")]
   else [])

/-- Electrical-permit strategies (lines 199-205): BIN first; then, when
`block` is truthy, line 203 evaluates `identifiers.get('borough', '').upper()`.
The resolver's dict always carries the `borough` key (possibly with value
`None`), so `.get` returns that `None` — the `''` default never applies — and
`None.upper()` raises an `AttributeError` that nothing in
`get_comprehensive_compliance_data` or `main` catches; `Except.error` models
that crash. When the value is a string, the Borough/Block strategy is added
exactly when the upper-cased name is non-empty. -/
def elecStrategies (ids : Identifiers) :
    Except String (List (String × String)) :=
  let strategies :=
    if truthy ids.bin then [("BIN", "bin = '" ++ ids.bin.getD "" ++ "'")] else []
  if truthy ids.block then
    match ids.borough with
    | none =>
        Except.error "AttributeError: 'NoneType' object has no attribute 'upper'"
    | some b =>
        let boroughName := strUpper b
        if boroughName != "" then
          Except.ok (strategies ++
            [("Borough/Block",
              "borough = '" ++ boroughName ++ "' AND block = '" ++ ids.block.getD "" ++ "'")])
        else Except.ok strategies
  else Except.ok strategies

/-- Elevator fetch (lines 179-186): one BIN query guarded by `try/except`,
kept only when non-empty. -/
def elevatorFetch (q : Oracle) (ids : Identifiers) :
    List NYCRecord × List String :=
  if truthy ids.bin then
    match q "elevator_inspections" ("bin = '" ++ ids.bin.getD "" ++ "'") with
    | Except.error _ => ([], ["BIN"])
    | Except.ok data => ((if data.isEmpty then [] else data), ["BIN"])
  else ([], [])

/-- Boiler fetch (lines 189-196): one BIN query; `if data:` keeps the result
exactly when non-empty, and an empty `data` leaves the result `[]`, so the
value is `data` either way. -/
def boilerFetch (q : Oracle) (ids : Identifiers) :
    List NYCRecord × List String :=
  if truthy ids.bin then
    match q "boiler_inspections" ("bin_number = '" ++ ids.bin.getD "" ++ "'") with
    | Except.error _ => ([], ["BIN"])
    | Except.ok data => (data, ["BIN"])
  else ([], [])

/-- The per-category result dictionary of
`get_comprehensive_compliance_data`. -/
structure ComplianceData where
  hpd_violations : List NYCRecord
  dob_violations : List NYCRecord
  elevator_data : List NYCRecord
  boiler_data : List NYCRecord
  electrical_permits : List NYCRecord
deriving DecidableEq, Repr

/-- The initial (all-empty) result dictionary. -/
def emptyCompliance : ComplianceData :=
  { hpd_violations := []
    dob_violations := []
    elevator_data := []
    boiler_data := []
    electrical_permits := [] }

/-- `get_comprehensive_compliance_data` of generate_report.py, instrumented
with the trace of issued query strategy names: returns the empty dictionary
immediately when `bin` is not truthy (`if not bin_num: return result`, line
125), otherwise runs every category's strategy loop. The electrical section
comes last in the source, so the earlier categories' queries have already
been issued when line 203 raises; the raised `AttributeError`
(`Except.error`) then aborts the whole function and nothing is returned. -/
def get_comprehensive_compliance_data_traced (q : Oracle) (ids : Identifiers) :
    Except String (ComplianceData × List String) :=
  if truthy ids.bin = false then Except.ok (emptyCompliance, [])
  else
    let hpd := stratLoop q "hpd_violations" ids.bin (hpdStrategies ids)
    let dob := stratLoop q "dob_violations" ids.bin (dobStrategies ids)
    let elev := elevatorFetch q ids
    let boil := boilerFetch q ids
    match elecStrategies ids with
    | Except.error e => Except.error e
    | Except.ok strats =>
        let elec := elecLoop q "electrical_permits" strats
        Except.ok
          ({ hpd_violations := hpd.1
             dob_violations := dob.1
             elevator_data := elev.1
             boiler_data := boil.1
             electrical_permits := elec.1 },
           hpd.2 ++ dob.2 ++ elev.2 ++ boil.2 ++ elec.2)

/-- `get_comprehensive_compliance_data` itself (the trace forgotten). -/
def get_comprehensive_compliance_data (q : Oracle) (ids : Identifiers) :
    Except String ComplianceData :=
  match get_comprehensive_compliance_data_traced q ids with
  | Except.error e => Except.error e
  | Except.ok r => Except.ok r.1

/-- `round(x, 1)` on the exactly-representable values occurring in
`calculate_scores` (all multiples of 0.5). -/
def round1 (x : ℚ) : ℚ := ((round (10 * x) : ℤ) : ℚ) / 10

/-- `max(0, 100 - hpd_active * 10)` of `calculate_scores`. -/
def hpdScoreInt (h : Nat) : ℤ := max 0 (100 - (h : ℤ) * 10)

/-- `max(0, 100 - dob_active * 15)` of `calculate_scores`. -/
def dobScoreInt (d : Nat) : ℤ := max 0 (100 - (d : ℤ) * 15)

/-- The scores dictionary of `calculate_scores`. -/
structure Scores where
  hpd_score : ℚ
  dob_score : ℚ
  overall_score : ℚ
  hpd_violations_active : Nat
  dob_violations_active : Nat
  elevator_devices : Nat
  boiler_devices : Nat
  electrical_permits : Nat
deriving DecidableEq, Repr

/-- `calculate_scores` of generate_report.py (lines 220-238); Python's float
arithmetic on these values (integers times 0.5, rounded to one decimal) is
exact, so ℚ models it faithfully. -/
def calculate_scores (d : ComplianceData) : Scores :=
  let hpd_active := d.hpd_violations.length
  let dob_active := d.dob_violations.length
  let hpd_score : ℚ := (hpdScoreInt hpd_active : ℚ)
  let dob_score : ℚ := (dobScoreInt dob_active : ℚ)
  let overall_score : ℚ := hpd_score * (1 / 2) + dob_score * (1 / 2)
  { hpd_score := round1 hpd_score
    dob_score := round1 dob_score
    overall_score := round1 overall_score
    hpd_violations_active := hpd_active
    dob_violations_active := dob_active
    elevator_devices := d.elevator_data.length
    boiler_devices := d.boiler_data.length
    electrical_permits := d.electrical_permits.length }

/-- The final report payload built by `main` (lines 260-272); each data list
is truncated to 50 entries. -/
structure Report where
  success : Bool
  property : Identifiers
  scores : Scores
  hpd_violations : List NYCRecord
  dob_violations : List NYCRecord
  elevator_data : List NYCRecord
  boiler_data : List NYCRecord
  electrical_permits : List NYCRecord
deriving DecidableEq, Repr

/-- Report assembly of `main`: `success` is always `True` here. -/
def build_report (ids : Identifiers) (d : ComplianceData) : Report :=
  { success := true
    property := ids
    scores := calculate_scores d
    hpd_violations := d.hpd_violations.take 50
    dob_violations := d.dob_violations.take 50
    elevator_data := d.elevator_data.take 50
    boiler_data := d.boiler_data.take 50
    electrical_permits := d.electrical_permits.take 50 }

/-- The observable outcome of `main` after address resolution: the JSON
report on stdout (success path), the JSON error object followed by
`sys.exit(1)` (resolution failure), or an uncaught exception killing the
process with a traceback and no JSON at all. -/
inductive PipelineOutcome where
  | report (rep : Report)
  | errorExit (msg : String)
  | uncaught (exc : String)
deriving DecidableEq, Repr

/-- `main` of generate_report.py after address resolution (lines 248-275):
an absent resolution or a non-truthy `bin` yields the error exit
(`'Property not found or BIN not available'`); otherwise the report is
assembled from `get_comprehensive_compliance_data` — unless that call raises
(no `try` surrounds it in `main`), in which case the exception escapes the
process. -/
def run_pipeline (transport : Oracle) (resolved : Option Identifiers) :
    PipelineOutcome :=
  match resolved with
  | none => PipelineOutcome.errorExit "Property not found or BIN not available"
  | some ids =>
      if truthy ids.bin = false then
        PipelineOutcome.errorExit "Property not found or BIN not available"
      else
        match get_comprehensive_compliance_data (mkQuery transport) ids with
        | Except.error e => PipelineOutcome.uncaught e
        | Except.ok d => PipelineOutcome.report (build_report ids d)

/-! ## Philadelphia scorer (`src/philly.py`) -/

/-- `chars1` starts with `chars2`. -/
def charsStartWith : List Char → List Char → Bool
  | _, [] => true
  | [], _ :: _ => false
  | a :: as, b :: bs => a == b && charsStartWith as bs

/-- `chars2` occurs as a contiguous run inside `chars1`. -/
def charsContain : List Char → List Char → Bool
  | [], t => t.isEmpty
  | a :: rest, t => charsStartWith (a :: rest) t || charsContain rest t

/-- Python's substring test `t in s`. -/
def strIn (t s : String) : Bool := charsContain s.toList t.toList

/-- A Philadelphia L&I violation record; `status` and `violationtype` are the
two fields `_calculate_enhanced_compliance_score` inspects. -/
structure PhillyViolation where
  status : Option String
  violationtype : Option String
deriving DecidableEq, Repr

/-- The open-status set of the scorer:
`v.get('status', '').upper() in ['OPEN', 'ACTIVE', 'IN VIOLATION']`. -/
def isOpenViolation (v : PhillyViolation) : Bool :=
  ["OPEN", "ACTIVE", "IN VIOLATION"].contains (strUpper (v.status.getD ""))

/-- `_categorize_violation_risk` of philly.py: keyword classification of the
violation description, buckets tested in fixed precedence order. -/
def categorize_violation_risk (violation_description : String) : String :=
  if violation_description == "" then "OTHER"
  else
    let u := strUpper violation_description
    if ["FIRE", "SMOKE", "ALARM", "SPRINKLER", "EXTINGUISHER", "EGRESS",
        "EXIT"].any (fun t => strIn t u) then "FIRE"
    else if ["STRUCTURAL", "FACADE", "FOUNDATION", "BEAM", "WALL",
        "ROOF"].any (fun t => strIn t u) then "STRUCTURAL"
    else if ["ELECTRICAL", "WIRING", "OUTLET", "CIRCUIT"].any
        (fun t => strIn t u) then "ELECTRICAL"
    else if ["MECHANICAL", "BOILER", "HVAC", "HEATING", "VENTILATION"].any
        (fun t => strIn t u) then "MECHANICAL"
    else if ["PLUMBING", "WATER", "PIPE", "SEWER", "DRAIN"].any
        (fun t => strIn t u) then "PLUMBING"
    else if ["HOUSING", "OCCUPANCY", "MAINTENANCE", "PROPERTY"].any
        (fun t => strIn t u) then "HOUSING"
    else if ["ZONING", "USE", "PERMIT"].any (fun t => strIn t u) then "ZONING"
    else "OTHER"

/-- `violation_risk_weights.get(violation_type, 5)` of the scorer. -/
def violationRiskWeight (t : String) : ℤ :=
  if t == "FIRE" then 25
  else if t == "STRUCTURAL" then 20
  else if t == "ELECTRICAL" then 15
  else if t == "MECHANICAL" then 12
  else if t == "PLUMBING" then 8
  else if t == "HOUSING" then 5
  else if t == "ZONING" then 3
  else 5

/-- `_calculate_enhanced_compliance_score` of philly.py (lines 566-604).
`isRecent` abstracts `_is_recent_permit` and `isExpired` abstracts
`_is_expired_certification` (both depend on `datetime.now()`); `cert_summary`
is accepted and unused, as in the source. -/
def phillyScore {P C : Type} (isRecent : P → Bool) (isExpired : C → Bool)
    (violations : List PhillyViolation) (permits : List P)
    (certifications : List C) (_cert_summary : List C) : ℤ :=
  let open_violations := violations.filter isOpenViolation
  let afterViolations := open_violations.foldl
    (fun s v =>
      s - violationRiskWeight (categorize_violation_risk (v.violationtype.getD "")))
    100
  let recent_permits := permits.filter isRecent
  let withPermitBonus := afterViolations + min ((recent_permits.length : ℤ) * 3) 15
  let expired_certs := certifications.filter isExpired
  let afterExpired := withPermitBonus - (expired_certs.length : ℤ) * 12
  let active_certs := certifications.filter (fun c => !(isExpired c))
  let withCertBonus := afterExpired + min ((active_certs.length : ℤ) * 2) 10
  max 0 (min 100 withCertBonus)

/-! ## Concrete inputs used by witnesses and counterexamples, and derived notions -/

def featW2a : Feature :=
  { housenumber := some "123", street := some "FAKE ST", borough := none,
    bin := some "7777777", bbl := none }

def featW2b : Feature :=
  { housenumber := some "60-48", street := some "MAIN ST", borough := some "Queens",
    bin := some "4000000", bbl := some "4012340056" }

def featC3 : Feature :=
  { housenumber := some "60-48", street := some "MAIN ST", borough := some "Manhattan",
    bin := some "1000000", bbl := some "1000120034" }

def idsC1 : Identifiers :=
  { bin := some "1000000", bbl := none, borough := some "Manhattan",
    block := some "123", lot := none, address := "60-48 MAIN ST" }

def recMismatch : NYCRecord := { bin := some "9999999" }

def oracleC1 : Oracle := fun ds w =>
  if ds = "electrical_permits" then
    (if w = "borough = 'MANHATTAN' AND block = '123'" then Except.ok [recMismatch]
     else Except.ok [])
  else Except.ok []

def oracleW1 : Oracle := fun ds w =>
  if ds = "hpd_violations" then
    Except.ok [{ bin := some "1000000" }, { bin := some "2000000" }]
  else if ds = "dob_violations" then
    (if w = "bin = '1000000' AND violation_category LIKE '%ACTIVE%'" then
      Except.ok []
     else Except.ok [{ bin := some "2000000" }, { bin := some "1000000" }])
  else Except.ok []

def idsW1 : Identifiers :=
  { bin := some "1000000", bbl := some "1000120034", borough := some "Manhattan",
    block := some "12", lot := some "34", address := "60-48 MAIN ST" }

def idsC4 : Identifiers :=
  { bin := none, bbl := some "1000120034", borough := some "Manhattan",
    block := some "12", lot := some "34", address := "60-48 MAIN ST" }

def oracleC4 : Oracle := fun _ _ => Except.ok [{ bin := some "1000000" }]

def nycCexData : ComplianceData :=
  { hpd_violations := []
    dob_violations := [{ bin := some "1000000" }]
    elevator_data := []
    boiler_data := []
    electrical_permits := [] }

/-- The per-violation penalty weight applied inside the scorer's loop. -/
def vWeight (v : PhillyViolation) : ℤ :=
  violationRiskWeight (categorize_violation_risk (v.violationtype.getD ""))

def fireViolation : PhillyViolation :=
  { status := some "OPEN", violationtype := some "BLOCKED FIRE EXIT" }

/-- A strategy "hits" in the HPD/DOB loop: its query succeeds, returns at
least one record, and (when the bundle's bin is truthy) at least one record
survives the BIN filter. -/
def stratSucceeds (q : Oracle) (ds : String) (binNum : Option String)
    (nw : String × String) : Bool :=
  match q ds nw.2 with
  | Except.error _ => false
  | Except.ok data =>
      if data.isEmpty then false
      else if truthy binNum then !(binFilter binNum data).isEmpty
      else true

/-- The validated record list a hitting strategy contributes. -/
def stratValidated (q : Oracle) (ds : String) (binNum : Option String)
    (nw : String × String) : List NYCRecord :=
  match q ds nw.2 with
  | Except.error _ => []
  | Except.ok data => if truthy binNum then binFilter binNum data else data

/-- A strategy "hits" in the electrical-permits loop: query succeeds with at
least one record (no cross-validation there). -/
def elecSucceeds (q : Oracle) (ds : String) (nw : String × String) : Bool :=
  match q ds nw.2 with
  | Except.error _ => false
  | Except.ok data => !data.isEmpty

/-- The record list a hitting electrical strategy contributes. -/
def elecReturned (q : Oracle) (ds : String) (nw : String × String) :
    List NYCRecord :=
  match q ds nw.2 with
  | Except.error _ => []
  | Except.ok data => data

def oracleW9 : Oracle := fun _ w =>
  if w = "w1" then Except.ok [] else Except.ok [{ bin := some "7000000" }]

def oracleW10 : Oracle := fun _ w =>
  if w = "wa" then Except.ok [{ bin := none }, { bin := some "2000000" }]
  else Except.ok [{ bin := some "1000000" }]

def oracleC8fail : Oracle := fun ds _ =>
  if ds = "electrical_permits" then Except.error "timed out"
  else Except.ok [{ bin := some "1000000" }]

def oracleC8ok : Oracle := fun ds _ =>
  if ds = "electrical_permits" then Except.ok []
  else Except.ok [{ bin := some "1000000" }]

/-- The category results `oracleC1`/`idsC1` produce: only the mismatching
electrical-permit record survives. -/
def complianceC1 : ComplianceData :=
  { hpd_violations := []
    dob_violations := []
    elevator_data := []
    boiler_data := []
    electrical_permits := [recMismatch] }

/-- The category results `oracleW1`/`idsW1` produce. -/
def complianceW1 : ComplianceData :=
  { hpd_violations := [{ bin := some "1000000" }]
    dob_violations := [{ bin := some "1000000" }]
    elevator_data := []
    boiler_data := []
    electrical_permits := [] }

/-- A geocoder feature with a valid bbl but no borough value: the resolver
turns it into a bundle with a truthy bin, a truthy block and `borough =
None`, the combination on which line 203 raises. -/
def featC8 : Feature :=
  { housenumber := some "1", street := some "X ST", borough := none,
    bin := some "1000000", bbl := some "1000120034" }

/-- The bundle the resolver builds from `featC8`. -/
def idsCrash : Identifiers := featureToIdentifiers featC8

/-! ## Theorems -/

lemma find?_first {α : Type} (p : α → Bool) :
    ∀ (l : List α), (∃ a ∈ l, p a = true) →
      ∃ (i : Nat) (fi : α), l[i]? = some fi ∧ l.find? p = some fi ∧ p fi = true ∧
        ∀ (j : Nat), j < i → ∀ g, l[j]? = some g → p g = false := by
  intro l
  induction l with
  | nil => rintro ⟨a, ha, _⟩; simp at ha
  | cons x xs ih =>
      rintro ⟨a, ha, hp⟩
      by_cases hx : p x = true
      · refine ⟨0, x, by simp, ?_, hx, ?_⟩
        · simp [List.find?_cons, hx]
        · intro j hj; exact absurd hj (by omega)
      · have hax : a ∈ xs := by
          rcases List.mem_cons.mp ha with h | h
          · subst h; exact absurd hp hx
          · exact h
        obtain ⟨i, fi, hget, hfind, hpfi, hmin⟩ := ih ⟨a, hax, hp⟩
        refine ⟨i + 1, fi, by simpa using hget, ?_, hpfi, ?_⟩
        · have hx' : p x = false := Bool.eq_false_iff.mpr hx
          simp [List.find?_cons, hx', hfind]
        · intro j hj g hg
          cases j with
          | zero =>
              simp at hg
              subst hg
              exact Bool.eq_false_iff.mpr hx
          | succ k =>
              exact hmin k (by omega) g (by simpa using hg)

/-- C2: for every input address whose extracted, normalized house number is
non-empty, and every geocoder candidate list containing at least one
candidate whose normalized house number equals the input's, the Address
Resolver selects the first such matching candidate in return order — never a
non-matching candidate — regardless of its rank in the list. -/
theorem resolver_selects_first_house_number_match
    (address : String) (features : List Feature) (s : String)
    (hnorm : normalize_house_number (extract_house_number address) = some s)
    (_hs : s ≠ "")
    (hmatch : ∃ f ∈ features, matchCond (some s) f = true) :
    ∃ (i : Nat) (fi : Feature), features[i]? = some fi ∧
      get_property_identifiers address features = some (featureToIdentifiers fi) ∧
      matchCond (some s) fi = true ∧
      ∀ (j : Nat), j < i → ∀ g, features[j]? = some g →
        matchCond (some s) g = false := by
  obtain ⟨i, fi, hget, hfind, hp, hmin⟩ := find?_first (matchCond (some s)) features hmatch
  refine ⟨i, fi, hget, ?_, hp, hmin⟩
  cases features with
  | nil => simp at hget
  | cons f0 rest =>
      simp only [get_property_identifiers, hnorm, hfind, Option.getD_some]

theorem resolver_selects_first_house_number_match_witness :
    normalize_house_number (extract_house_number "60-48 Main St") = some "6048" ∧
    ∃ (i : Nat) (fi : Feature), ([featW2a, featW2b])[i]? = some fi ∧
      get_property_identifiers "60-48 Main St" [featW2a, featW2b] =
        some (featureToIdentifiers fi) ∧
      matchCond (some "6048") fi = true ∧
      ∀ (j : Nat), j < i → ∀ g, ([featW2a, featW2b])[j]? = some g →
        matchCond (some "6048") g = false :=
  ⟨by decide,
   resolver_selects_first_house_number_match "60-48 Main St" [featW2a, featW2b]
     "6048" (by decide) (by decide) ⟨featW2b, by decide, by decide⟩⟩

/-- C3 counterexample: with the same single-candidate list, an input address
whose house number does not match (fallback path) and one that matches
exactly produce identical identifier bundles — the fallback bundle carries no
"unverified-match" flag, so downstream consumers cannot distinguish it. -/
theorem resolver_fallback_no_flag_counterexample :
    matchCond (normalize_house_number (extract_house_number "999 FAKE ST")) featC3 = false ∧
    matchCond (normalize_house_number (extract_house_number "60-48 MAIN ST")) featC3 = true ∧
    get_property_identifiers "999 FAKE ST" [featC3] =
      get_property_identifiers "60-48 MAIN ST" [featC3] := by
  refine ⟨by decide, by decide, by decide⟩

/-- C3 amended: when no candidate matches, the resolver returns the
first-ranked candidate's identifier bundle (but sets no flag on it; the
warning exists only as a log line). -/
theorem resolver_fallback_first_candidate
    (address : String) (f0 : Feature) (rest : List Feature)
    (hnone : ∀ f ∈ f0 :: rest,
      matchCond (normalize_house_number (extract_house_number address)) f = false) :
    get_property_identifiers address (f0 :: rest) = some (featureToIdentifiers f0) := by
  have hfind : (f0 :: rest).find?
      (matchCond (normalize_house_number (extract_house_number address))) = none := by
    rw [List.find?_eq_none]
    intro f hf
    simp [hnone f hf]
  simp only [get_property_identifiers, hfind, Option.getD_none]

theorem resolver_fallback_first_candidate_witness :
    (∀ f ∈ [featC3],
      matchCond (normalize_house_number (extract_house_number "999 FAKE ST")) f = false) ∧
    get_property_identifiers "999 FAKE ST" [featC3] = some (featureToIdentifiers featC3) :=
  ⟨by decide, resolver_fallback_first_candidate "999 FAKE ST" featC3 [] (by decide)⟩

lemma stratLoop_mem_bin (q : Oracle) (ds : String) (b : Option String)
    (hb : truthy b = true) :
    ∀ (l : List (String × String)) (r : NYCRecord),
      r ∈ (stratLoop q ds b l).1 → r.bin = b := by
  intro l
  induction l with
  | nil => intro r hr; simp [stratLoop] at hr
  | cons nw rest ih =>
      obtain ⟨name, w⟩ := nw
      intro r hr
      unfold stratLoop at hr
      cases hq : q ds w with
      | error e => rw [hq] at hr; exact ih r hr
      | ok data =>
          rw [hq] at hr
          dsimp only at hr
          by_cases hd : data.isEmpty
          · rw [if_pos hd] at hr; exact ih r hr
          · rw [if_neg hd, hb, if_pos rfl] at hr
            by_cases hf : (binFilter b data).isEmpty
            · rw [if_pos hf] at hr; exact ih r hr
            · rw [if_neg hf] at hr
              have := List.mem_filter.mp hr
              exact eq_of_beq this.2

/-- C1 amended: when the bundle's bin is populated, every record in the final
HPD-violations and DOB-violations lists of any returned result dictionary has
a record-level bin equal to the bundle's bin; the electrical-permits list has
no such guarantee (see the counterexample). -/
theorem hpd_dob_bin_validation (q : Oracle) (ids : Identifiers)
    (hb : truthy ids.bin = true) (d : ComplianceData)
    (hd : get_comprehensive_compliance_data q ids = Except.ok d) :
    (∀ r ∈ d.hpd_violations, r.bin = ids.bin) ∧
    (∀ r ∈ d.dob_violations, r.bin = ids.bin) := by
  unfold get_comprehensive_compliance_data
    get_comprehensive_compliance_data_traced at hd
  rw [hb] at hd
  simp only [Bool.true_eq_false, if_false] at hd
  cases hes : elecStrategies ids with
  | error e => rw [hes] at hd; exact absurd hd (by simp)
  | ok strats =>
      rw [hes] at hd
      dsimp only at hd
      rw [Except.ok.injEq] at hd
      subst hd
      exact ⟨fun r hr => stratLoop_mem_bin q "hpd_violations" ids.bin hb _ r hr,
             fun r hr => stratLoop_mem_bin q "dob_violations" ids.bin hb _ r hr⟩

/-- C1 counterexample: with the bundle's bin populated, a record fetched for
the electrical-permits category through the coarser Borough/Block strategy
whose record-level bin disagrees with the bundle's bin does appear in the
final category result — the code applies no BIN cross-validation to
electrical permits. -/
theorem electrical_permits_bin_mismatch_counterexample :
    truthy idsC1.bin = true ∧
    get_comprehensive_compliance_data oracleC1 idsC1 = Except.ok complianceC1 ∧
    complianceC1.electrical_permits = [recMismatch] ∧
    recMismatch.bin ≠ idsC1.bin := by
  refine ⟨by decide, by rfl, by rfl, by decide⟩

theorem hpd_dob_bin_validation_witness :
    truthy idsW1.bin = true ∧
    get_comprehensive_compliance_data oracleW1 idsW1 = Except.ok complianceW1 ∧
    ((∀ r ∈ complianceW1.hpd_violations, r.bin = idsW1.bin) ∧
     (∀ r ∈ complianceW1.dob_violations, r.bin = idsW1.bin)) :=
  ⟨by decide, by rfl,
   hpd_dob_bin_validation oracleW1 idsW1 (by decide) complianceW1 (by rfl)⟩

lemma stratLoop_trace_cons (q : Oracle) (ds : String) (b : Option String)
    (nw : String × String) (rest : List (String × String)) :
    (stratLoop q ds b (nw :: rest)).2 ≠ [] := by
  obtain ⟨name, w⟩ := nw
  unfold stratLoop
  cases q ds w with
  | error e => simp
  | ok data =>
      dsimp only
      by_cases hd : data.isEmpty
      · simp [hd]
      · rw [if_neg hd]
        by_cases hb : truthy b
        · rw [if_pos hb]
          by_cases hf : (binFilter b data).isEmpty
          · simp [hf]
          · simp [hf]
        · simp [hb]

lemma elecStrategies_crash (ids : Identifiers)
    (hblock : truthy ids.block = true) (hbor : ids.borough = none) :
    elecStrategies ids =
      Except.error "AttributeError: 'NoneType' object has no attribute 'upper'" := by
  unfold elecStrategies
  rw [hblock, hbor]
  simp

lemma elecStrategies_ok (ids : Identifiers)
    (h : ¬(truthy ids.block = true ∧ ids.borough = none)) :
    ∃ strats, elecStrategies ids = Except.ok strats := by
  unfold elecStrategies
  by_cases hblock : truthy ids.block
  · cases hbor : ids.borough with
    | none => exact absurd ⟨hblock, hbor⟩ h
    | some b =>
        simp only [hblock, hbor, if_true]
        by_cases hn : strUpper b != ""
        · exact ⟨_, by rw [if_pos hn]⟩
        · exact ⟨_, by rw [if_neg hn]⟩
  · rw [Bool.not_eq_true] at hblock
    simp only [hblock, Bool.false_eq_true, if_false]
    exact ⟨_, rfl⟩

lemma comprehensive_traced_of_elec_ok (q : Oracle) (ids : Identifiers)
    (hb : truthy ids.bin = true) (strats : List (String × String))
    (hes : elecStrategies ids = Except.ok strats) :
    get_comprehensive_compliance_data_traced q ids = Except.ok
      ({ hpd_violations := (stratLoop q "hpd_violations" ids.bin (hpdStrategies ids)).1
         dob_violations := (stratLoop q "dob_violations" ids.bin (dobStrategies ids)).1
         elevator_data := (elevatorFetch q ids).1
         boiler_data := (boilerFetch q ids).1
         electrical_permits := (elecLoop q "electrical_permits" strats).1 },
       (stratLoop q "hpd_violations" ids.bin (hpdStrategies ids)).2 ++
         (stratLoop q "dob_violations" ids.bin (dobStrategies ids)).2 ++
         (elevatorFetch q ids).2 ++ (boilerFetch q ids).2 ++
         (elecLoop q "electrical_permits" strats).2) := by
  unfold get_comprehensive_compliance_data_traced
  rw [hb]
  simp only [Bool.true_eq_false, if_false, hes]

lemma comprehensive_traced_of_elec_error (q : Oracle) (ids : Identifiers)
    (hb : truthy ids.bin = true) (e : String)
    (hes : elecStrategies ids = Except.error e) :
    get_comprehensive_compliance_data_traced q ids = Except.error e := by
  unfold get_comprehensive_compliance_data_traced
  rw [hb]
  simp only [Bool.true_eq_false, if_false, hes]

lemma comprehensive_traced_crash (q : Oracle) (ids : Identifiers)
    (hb : truthy ids.bin = true) (hblock : truthy ids.block = true)
    (hbor : ids.borough = none) :
    get_comprehensive_compliance_data_traced q ids =
      Except.error "AttributeError: 'NoneType' object has no attribute 'upper'" :=
  comprehensive_traced_of_elec_error q ids hb _ (elecStrategies_crash ids hblock hbor)

/-- C4 amended: registry queries are attempted exactly when the bundle's bin
is truthy, and resolution is considered failed exactly when the bin is
absent/empty — a bundle carrying only a bbl is reported as a failure and no
query is issued for it (contrary to the claim). When the bin is truthy, the
run produces a success report unless the bundle has a truthy block together
with no borough value, in which case building the electrical strategies
raises an uncaught AttributeError and the process dies with no report. -/
theorem queries_gated_on_bin (transport q : Oracle) (ids : Identifiers) :
    (truthy ids.bin = false →
      get_comprehensive_compliance_data_traced q ids =
        Except.ok (emptyCompliance, []) ∧
      run_pipeline transport (some ids) =
        PipelineOutcome.errorExit "Property not found or BIN not available") ∧
    (truthy ids.bin = true →
      (∀ d tr, get_comprehensive_compliance_data_traced q ids =
        Except.ok (d, tr) → tr ≠ []) ∧
      (¬(truthy ids.block = true ∧ ids.borough = none) →
        ∃ rep, run_pipeline transport (some ids) = PipelineOutcome.report rep) ∧
      (truthy ids.block = true ∧ ids.borough = none →
        run_pipeline transport (some ids) = PipelineOutcome.uncaught
          "AttributeError: 'NoneType' object has no attribute 'upper'")) := by
  constructor
  · intro h
    constructor
    · unfold get_comprehensive_compliance_data_traced
      rw [h]
      simp
    · unfold run_pipeline
      dsimp only
      rw [h]
      simp
  · intro h
    refine ⟨?_, ?_, ?_⟩
    · intro d tr hd
      cases hes : elecStrategies ids with
      | error e =>
          rw [comprehensive_traced_of_elec_error q ids h e hes] at hd
          exact absurd hd (by simp)
      | ok strats =>
          rw [comprehensive_traced_of_elec_ok q ids h strats hes,
            Except.ok.injEq, Prod.mk.injEq] at hd
          intro hnil
          rw [hnil] at hd
          have htr := hd.2
          rw [List.append_eq_nil] at htr
          have h1 := htr.1
          rw [List.append_eq_nil] at h1
          have h2 := h1.1
          rw [List.append_eq_nil] at h2
          have h3 := h2.1
          rw [List.append_eq_nil] at h3
          have h4 : hpdStrategies ids =
              ("BIN", "bin = '" ++ ids.bin.getD "" ++ "' AND violationstatus = 'Open'")
                :: (if truthy ids.bbl then
                     [("BBL", "bbl = '" ++ ids.bbl.getD "" ++ "' AND violationstatus = 'Open'")]
                    else []) := by
            unfold hpdStrategies
            rw [h]
            simp
          exact stratLoop_trace_cons q "hpd_violations" ids.bin _ _ (h4 ▸ h3.1)
    · intro hnc
      obtain ⟨strats, hes⟩ := elecStrategies_ok ids hnc
      cases hgc : get_comprehensive_compliance_data (mkQuery transport) ids with
      | error e =>
          exfalso
          unfold get_comprehensive_compliance_data at hgc
          rw [comprehensive_traced_of_elec_ok (mkQuery transport) ids h
            strats hes] at hgc
          exact Except.noConfusion hgc
      | ok d =>
          refine ⟨build_report ids d, ?_⟩
          unfold run_pipeline
          dsimp only
          rw [h]
          simp only [Bool.true_eq_false, if_false]
          rw [hgc]
    · rintro ⟨hblock, hbor⟩
      unfold run_pipeline
      dsimp only
      rw [h]
      simp only [Bool.true_eq_false, if_false]
      have hgc : get_comprehensive_compliance_data (mkQuery transport) ids =
          Except.error "AttributeError: 'NoneType' object has no attribute 'upper'" := by
        unfold get_comprehensive_compliance_data
        rw [comprehensive_traced_crash (mkQuery transport) ids h hblock hbor]
      rw [hgc]

/-- C4 counterexample: a bundle with a populated bbl but no bin does not
proceed to registry queries — `get_comprehensive_compliance_data` returns the
all-empty result with no query issued even against a registry that has data,
and `main` reports the run as a failure. -/
theorem bbl_only_bundle_fails_counterexample :
    truthy idsC4.bbl = true ∧ truthy idsC4.bin = false ∧
    get_comprehensive_compliance_data_traced oracleC4 idsC4 =
      Except.ok (emptyCompliance, []) ∧
    run_pipeline oracleC4 (some idsC4) =
      PipelineOutcome.errorExit "Property not found or BIN not available" := by
  refine ⟨by decide, by decide, by rfl, by decide⟩

theorem queries_gated_on_bin_witness :
    (∀ d tr, get_comprehensive_compliance_data_traced oracleC4 idsW1 =
      Except.ok (d, tr) → tr ≠ []) ∧
    (∃ rep, run_pipeline oracleC4 (some idsW1) = PipelineOutcome.report rep) ∧
    run_pipeline oracleC4 (some idsCrash) = PipelineOutcome.uncaught
      "AttributeError: 'NoneType' object has no attribute 'upper'" :=
  ⟨((queries_gated_on_bin oracleC4 oracleC4 idsW1).2 (by decide)).1,
   ((queries_gated_on_bin oracleC4 oracleC4 idsW1).2 (by decide)).2.1 (by decide),
   ((queries_gated_on_bin oracleC4 oracleC4 idsCrash).2 (by decide)).2.2 (by decide)⟩

lemma round1_int_half (n : ℤ) : round1 ((n : ℚ) / 2) = (n : ℚ) / 2 := by
  unfold round1
  have h10 : (10 : ℚ) * ((n : ℚ) / 2) = ((5 * n : ℤ) : ℚ) := by push_cast; ring
  rw [h10, round_intCast]
  push_cast
  ring

lemma hpdScoreInt_range (h : Nat) : 0 ≤ hpdScoreInt h ∧ hpdScoreInt h ≤ 100 := by
  unfold hpdScoreInt
  refine ⟨le_max_left _ _, max_le (by norm_num) (by omega)⟩

lemma dobScoreInt_range (d : Nat) : 0 ≤ dobScoreInt d ∧ dobScoreInt d ≤ 100 := by
  unfold dobScoreInt
  refine ⟨le_max_left _ _, max_le (by norm_num) (by omega)⟩

lemma overall_score_eq (d : ComplianceData) :
    (calculate_scores d).overall_score =
      ((hpdScoreInt d.hpd_violations.length + dobScoreInt d.dob_violations.length : ℤ) : ℚ) / 2 := by
  unfold calculate_scores
  dsimp only
  have heq : ((hpdScoreInt d.hpd_violations.length : ℤ) : ℚ) * (1 / 2) +
      ((dobScoreInt d.dob_violations.length : ℤ) : ℚ) * (1 / 2) =
      ((hpdScoreInt d.hpd_violations.length + dobScoreInt d.dob_violations.length : ℤ) : ℚ) / 2 := by
    push_cast
    ring
  rw [heq, round1_int_half]

/-- C5 amended: the Philadelphia scorer always returns an integer in
[0, 100] (its value is of integer type); the NYC overall compliance score
always lies in [0, 100] and is an integer multiple of one half, but it is
not always an integer (see the counterexample). -/
theorem compliance_scores_bounded :
    (∀ d : ComplianceData,
      0 ≤ (calculate_scores d).overall_score ∧
      (calculate_scores d).overall_score ≤ 100 ∧
      ∃ k : ℤ, (calculate_scores d).overall_score = (k : ℚ) / 2) ∧
    (∀ (P C : Type) (isRecent : P → Bool) (isExpired : C → Bool)
       (violations : List PhillyViolation) (permits : List P)
       (certifications : List C) (cert_summary : List C),
      0 ≤ phillyScore isRecent isExpired violations permits certifications cert_summary ∧
      phillyScore isRecent isExpired violations permits certifications cert_summary ≤ 100) := by
  constructor
  · intro d
    obtain ⟨h1, h2⟩ := hpdScoreInt_range d.hpd_violations.length
    obtain ⟨h3, h4⟩ := dobScoreInt_range d.dob_violations.length
    rw [overall_score_eq]
    refine ⟨?_, ?_, _, rfl⟩
    · apply div_nonneg _ (by norm_num)
      exact_mod_cast by omega
    · rw [div_le_iff₀ (by norm_num)]
      have : ((hpdScoreInt d.hpd_violations.length +
          dobScoreInt d.dob_violations.length : ℤ) : ℚ) ≤ ((200 : ℤ) : ℚ) := by
        exact_mod_cast by omega
      calc ((hpdScoreInt d.hpd_violations.length +
              dobScoreInt d.dob_violations.length : ℤ) : ℚ)
          ≤ ((200 : ℤ) : ℚ) := this
        _ = 100 * 2 := by norm_num
  · intro P C isRecent isExpired violations permits certifications cert_summary
    unfold phillyScore
    exact ⟨le_max_left _ _, max_le (by norm_num) (min_le_left _ _)⟩

/-- C5 counterexample: with zero open HPD violations and one active DOB
violation the NYC overall compliance score is 92.5, which is not an
integer. -/
theorem nyc_overall_score_non_integer_counterexample :
    (calculate_scores nycCexData).overall_score = 185 / 2 ∧
    ¬ ∃ z : ℤ, (calculate_scores nycCexData).overall_score = (z : ℚ) := by
  have hval : (calculate_scores nycCexData).overall_score = 185 / 2 := by
    rw [overall_score_eq]
    norm_num [nycCexData, hpdScoreInt, dobScoreInt]
  refine ⟨hval, ?_⟩
  rintro ⟨z, hz⟩
  rw [hval] at hz
  have h2 : (185 : ℚ) = 2 * (z : ℚ) := by
    field_simp at hz
    linarith
  have h3 : (185 : ℤ) = 2 * z := by exact_mod_cast h2
  omega

lemma foldl_sub_weights :
    ∀ (l : List PhillyViolation) (i : ℤ),
      l.foldl (fun s v => s - vWeight v) i = i - (l.map vWeight).sum := by
  intro l
  induction l with
  | nil => simp
  | cons x xs ih =>
      intro i
      rw [List.foldl_cons, ih, List.map_cons, List.sum_cons]
      ring

lemma phillyScore_eq {P C : Type} (isRecent : P → Bool) (isExpired : C → Bool)
    (violations : List PhillyViolation) (permits : List P)
    (certifications : List C) (cert_summary : List C) :
    phillyScore isRecent isExpired violations permits certifications cert_summary =
      max 0 (min 100
        (100 - ((violations.filter isOpenViolation).map vWeight).sum
          + min (((permits.filter isRecent).length : ℤ) * 3) 15
          - ((certifications.filter isExpired).length : ℤ) * 12
          + min (((certifications.filter (fun c => !(isExpired c))).length : ℤ) * 2) 10)) := by
  unfold phillyScore
  dsimp only
  rw [show (fun (s : ℤ) (v : PhillyViolation) =>
      s - violationRiskWeight (categorize_violation_risk (v.violationtype.getD ""))) =
      (fun s v => s - vWeight v) from rfl]
  rw [foldl_sub_weights]

lemma clamp_mono {a b : ℤ} (h : a ≤ b) :
    max 0 (min 100 a) ≤ max 0 (min 100 b) :=
  max_le_max le_rfl (min_le_min le_rfl h)

/-- C6: appending one open fire-safety violation never increases the
Philadelphia compliance score, and appending one active (non-expired)
certification never decreases it, everything else held fixed. -/
theorem philly_score_monotone (P C : Type) (isRecent : P → Bool) (isExpired : C → Bool)
    (violations : List PhillyViolation) (permits : List P)
    (certifications : List C) (cert_summary : List C)
    (v : PhillyViolation) (c : C)
    (hopen : isOpenViolation v = true)
    (hfire : categorize_violation_risk (v.violationtype.getD "") = "FIRE") :
    phillyScore isRecent isExpired (violations ++ [v]) permits certifications cert_summary ≤
      phillyScore isRecent isExpired violations permits certifications cert_summary ∧
    (isExpired c = false →
      phillyScore isRecent isExpired violations permits certifications cert_summary ≤
        phillyScore isRecent isExpired violations permits (certifications ++ [c]) cert_summary) := by
  constructor
  · rw [phillyScore_eq, phillyScore_eq]
    have hw : vWeight v = 25 := by unfold vWeight; rw [hfire]; rfl
    have hfilter : (violations ++ [v]).filter isOpenViolation =
        violations.filter isOpenViolation ++ [v] := by
      rw [List.filter_append]
      simp [hopen]
    rw [hfilter, List.map_append, List.sum_append]
    apply clamp_mono
    simp only [List.map_cons, List.map_nil, List.sum_cons, List.sum_nil, hw]
    omega
  · intro hc
    rw [phillyScore_eq, phillyScore_eq]
    have hexp : (certifications ++ [c]).filter isExpired =
        certifications.filter isExpired := by
      rw [List.filter_append]
      simp [hc]
    have hact : (certifications ++ [c]).filter (fun x => !(isExpired x)) =
        certifications.filter (fun x => !(isExpired x)) ++ [c] := by
      rw [List.filter_append]
      simp [hc]
    rw [hexp, hact, List.length_append]
    apply clamp_mono
    have hmin : min ((((certifications.filter (fun x => !(isExpired x))).length : ℤ)) * 2) 10 ≤
        min ((((certifications.filter (fun x => !(isExpired x))).length + [c].length : ℕ) : ℤ) * 2) 10 := by
      apply min_le_min _ le_rfl
      push_cast
      omega
    omega

theorem philly_score_monotone_witness :
    isOpenViolation fireViolation = true ∧
    categorize_violation_risk (fireViolation.violationtype.getD "") = "FIRE" ∧
    (phillyScore (P := Unit) (C := Unit) (fun _ => false) (fun _ => false)
        ([fireViolation] ++ [fireViolation]) [] [] [] ≤
      phillyScore (P := Unit) (C := Unit) (fun _ => false) (fun _ => false)
        [fireViolation] [] [] [] ∧
     ((fun _ : Unit => false) () = false →
      phillyScore (P := Unit) (C := Unit) (fun _ => false) (fun _ => false)
          [fireViolation] [] [] [] ≤
        phillyScore (P := Unit) (C := Unit) (fun _ => false) (fun _ => false)
          [fireViolation] [] ([] ++ [()]) [])) :=
  ⟨by decide, by decide,
   philly_score_monotone Unit Unit (fun _ => false) (fun _ => false)
     [fireViolation] [] [] [] fireViolation () (by decide) (by decide)⟩

/-- C7: three open fire-safety violations with no offsetting activity give a
Philadelphia compliance score of exactly 25, and the empty input gives
exactly 100. -/
theorem philly_score_scenarios :
    phillyScore (P := Unit) (C := Unit) (fun _ => false) (fun _ => false)
      [fireViolation, fireViolation, fireViolation] [] [] [] = 25 ∧
    phillyScore (P := Unit) (C := Unit) (fun _ => false) (fun _ => false)
      [] [] [] [] = 100 := by
  refine ⟨by decide, by decide⟩

lemma stratLoop_hit (q : Oracle) (ds : String) (b : Option String)
    (s : String × String) (post : List (String × String))
    (h : stratSucceeds q ds b s = true) :
    stratLoop q ds b (s :: post) = (stratValidated q ds b s, [s.1]) := by
  obtain ⟨name, w⟩ := s
  unfold stratSucceeds at h
  dsimp only at h
  cases hq : q ds w with
  | error e => rw [hq] at h; simp at h
  | ok data =>
      rw [hq] at h
      dsimp only at h
      by_cases hd : data.isEmpty
      · rw [if_pos hd] at h; simp at h
      · rw [if_neg hd] at h
        by_cases hb : truthy b
        · rw [if_pos hb] at h
          rw [Bool.not_eq_true'] at h
          simp [stratLoop, stratValidated, hq, hd, hb, h]
        · simp [stratLoop, stratValidated, hq, hd, hb]

lemma stratLoop_miss (q : Oracle) (ds : String) (b : Option String)
    (p : String × String) (rest : List (String × String))
    (h : stratSucceeds q ds b p = false) :
    stratLoop q ds b (p :: rest) =
      ((stratLoop q ds b rest).1, p.1 :: (stratLoop q ds b rest).2) := by
  obtain ⟨name, w⟩ := p
  unfold stratSucceeds at h
  dsimp only at h
  cases hq : q ds w with
  | error e => simp [stratLoop, hq]
  | ok data =>
      rw [hq] at h
      dsimp only at h
      by_cases hd : data.isEmpty
      · simp [stratLoop, hq, hd]
      · rw [if_neg hd] at h
        by_cases hb : truthy b
        · rw [if_pos hb] at h
          rw [Bool.not_eq_false'] at h
          simp [stratLoop, hq, hd, hb, h]
        · rw [if_neg hb] at h
          exact absurd h (by simp)

lemma elecLoop_hit (q : Oracle) (ds : String)
    (s : String × String) (post : List (String × String))
    (h : elecSucceeds q ds s = true) :
    elecLoop q ds (s :: post) = (elecReturned q ds s, [s.1]) := by
  obtain ⟨name, w⟩ := s
  unfold elecSucceeds at h
  dsimp only at h
  cases hq : q ds w with
  | error e => rw [hq] at h; simp at h
  | ok data =>
      rw [hq] at h
      dsimp only at h
      rw [Bool.not_eq_true'] at h
      simp [elecLoop, elecReturned, hq, h]

lemma elecLoop_miss (q : Oracle) (ds : String)
    (p : String × String) (rest : List (String × String))
    (h : elecSucceeds q ds p = false) :
    elecLoop q ds (p :: rest) =
      ((elecLoop q ds rest).1, p.1 :: (elecLoop q ds rest).2) := by
  obtain ⟨name, w⟩ := p
  unfold elecSucceeds at h
  dsimp only at h
  cases hq : q ds w with
  | error e => simp [elecLoop, hq]
  | ok data =>
      rw [hq] at h
      dsimp only at h
      rw [Bool.not_eq_false'] at h
      simp [elecLoop, hq, h]

/-- C9: strategies run strictly in list order; once an earlier strategy
returns records that survive cross-validation, no later strategy's query is
issued (the issued-query trace is exactly the names of the failing earlier
strategies followed by the hitting one) and the category's final record list
equals the hitting strategy's validated records. Both the HPD/DOB loop and
the electrical-permits loop behave this way. -/
theorem strategies_sequential_first_hit (q : Oracle) (ds : String)
    (b : Option String) (pre : List (String × String)) (s : String × String)
    (post : List (String × String)) :
    ((∀ p ∈ pre, stratSucceeds q ds b p = false) →
      stratSucceeds q ds b s = true →
      stratLoop q ds b (pre ++ s :: post) =
        (stratValidated q ds b s, pre.map Prod.fst ++ [s.1])) ∧
    ((∀ p ∈ pre, elecSucceeds q ds p = false) →
      elecSucceeds q ds s = true →
      elecLoop q ds (pre ++ s :: post) =
        (elecReturned q ds s, pre.map Prod.fst ++ [s.1])) := by
  constructor
  · intro hpre hs
    induction pre with
    | nil => simpa using stratLoop_hit q ds b s post hs
    | cons p ps ih =>
        have h1 : stratSucceeds q ds b p = false := hpre p (List.mem_cons_self p ps)
        have h2 := ih (fun x hx => hpre x (List.mem_cons_of_mem p hx))
        rw [List.cons_append, stratLoop_miss q ds b p (ps ++ s :: post) h1, h2]
        simp
  · intro hpre hs
    induction pre with
    | nil => simpa using elecLoop_hit q ds s post hs
    | cons p ps ih =>
        have h1 : elecSucceeds q ds p = false := hpre p (List.mem_cons_self p ps)
        have h2 := ih (fun x hx => hpre x (List.mem_cons_of_mem p hx))
        rw [List.cons_append, elecLoop_miss q ds p (ps ++ s :: post) h1, h2]
        simp

theorem strategies_sequential_first_hit_witness :
    (∀ p ∈ [(("BIN", "w1") : String × String)],
      stratSucceeds oracleW9 "hpd_violations" (some "7000000") p = false) ∧
    stratSucceeds oracleW9 "hpd_violations" (some "7000000") ("BBL", "w2") = true ∧
    stratLoop oracleW9 "hpd_violations" (some "7000000")
        ([("BIN", "w1")] ++ ("BBL", "w2") :: [("X", "w3")]) =
      (stratValidated oracleW9 "hpd_violations" (some "7000000") ("BBL", "w2"),
        [("BIN", "w1")].map Prod.fst ++ [("BBL", "w2").1]) ∧
    elecLoop oracleW9 "electrical_permits"
        ([("BIN", "w1")] ++ ("BBL", "w2") :: [("X", "w3")]) =
      (elecReturned oracleW9 "electrical_permits" ("BBL", "w2"),
        [("BIN", "w1")].map Prod.fst ++ [("BBL", "w2").1]) :=
  ⟨by decide, by decide,
   (strategies_sequential_first_hit oracleW9 "hpd_violations" (some "7000000")
      [("BIN", "w1")] ("BBL", "w2") [("X", "w3")]).1 (by decide) (by decide),
   (strategies_sequential_first_hit oracleW9 "electrical_permits" (some "7000000")
      [("BIN", "w1")] ("BBL", "w2") [("X", "w3")]).2 (by decide) (by decide)⟩

/-- C10: in the HPD/DOB loops, when the bundle's bin is populated the
cross-validation filter retains exactly the records whose bin field is
present and equal to the bundle's bin — a record with no bin field at all is
dropped too — and a strategy whose non-empty query result is emptied by the
filter is treated as a miss: the loop moves on to the next strategy. -/
theorem bin_filter_drops_missing_and_advances
    (b : String) (hb : b ≠ "") (q : Oracle) (ds : String) (nw : String × String)
    (rest : List (String × String)) (data : List NYCRecord)
    (hq : q ds nw.2 = Except.ok data) (hne : data ≠ [])
    (hempty : binFilter (some b) data = []) :
    (∀ (l : List NYCRecord) (r : NYCRecord),
        r ∈ binFilter (some b) l ↔ r ∈ l ∧ r.bin = some b) ∧
    (∀ (l : List NYCRecord) (r : NYCRecord), r.bin = none →
        r ∉ binFilter (some b) l) ∧
    stratLoop q ds (some b) (nw :: rest) =
      ((stratLoop q ds (some b) rest).1, nw.1 :: (stratLoop q ds (some b) rest).2) := by
  have hmem : ∀ (l : List NYCRecord) (r : NYCRecord),
      r ∈ binFilter (some b) l ↔ r ∈ l ∧ r.bin = some b := by
    intro l r
    unfold binFilter
    rw [List.mem_filter]
    constructor
    · rintro ⟨h1, h2⟩; exact ⟨h1, eq_of_beq h2⟩
    · rintro ⟨h1, h2⟩; exact ⟨h1, by rw [h2]; exact beq_self_eq_true _⟩
  refine ⟨hmem, ?_, ?_⟩
  · intro l r hnone hr
    have := (hmem l r).mp hr
    rw [hnone] at this
    exact Option.noConfusion this.2
  · apply stratLoop_miss
    unfold stratSucceeds
    rw [hq]
    dsimp only
    rw [if_neg (by simpa using hne)]
    rw [if_pos (by simp [truthy, hb])]
    rw [hempty]
    rfl

theorem bin_filter_drops_missing_and_advances_witness :
    (∀ (l : List NYCRecord) (r : NYCRecord),
        r ∈ binFilter (some "1000000") l ↔ r ∈ l ∧ r.bin = some "1000000") ∧
    (∀ (l : List NYCRecord) (r : NYCRecord), r.bin = none →
        r ∉ binFilter (some "1000000") l) ∧
    stratLoop oracleW10 "hpd_violations" (some "1000000")
        (("BIN", "wa") :: [("BBL", "wb")]) =
      ((stratLoop oracleW10 "hpd_violations" (some "1000000") [("BBL", "wb")]).1,
        ("BIN", "wa").1 ::
          (stratLoop oracleW10 "hpd_violations" (some "1000000") [("BBL", "wb")]).2) :=
  bin_filter_drops_missing_and_advances "1000000" (by decide) oracleW10
    "hpd_violations" ("BIN", "wa") [("BBL", "wb")]
    [{ bin := none }, { bin := some "2000000" }] (by rfl) (by decide) (by decide)

lemma stratLoop_congr (q1 q2 : Oracle) (ds : String) (b : Option String)
    (h : ∀ w, q1 ds w = q2 ds w) :
    ∀ l, stratLoop q1 ds b l = stratLoop q2 ds b l := by
  intro l
  induction l with
  | nil => rfl
  | cons nw rest ih =>
      obtain ⟨name, w⟩ := nw
      simp only [stratLoop, h w, ih]

lemma elecLoop_congr (q1 q2 : Oracle) (ds : String)
    (h : ∀ w, q1 ds w = q2 ds w) :
    ∀ l, elecLoop q1 ds l = elecLoop q2 ds l := by
  intro l
  induction l with
  | nil => rfl
  | cons nw rest ih =>
      obtain ⟨name, w⟩ := nw
      simp only [elecLoop, h w, ih]

lemma elecLoop_all_empty (q : Oracle) (ds : String)
    (h : ∀ w, q ds w = Except.ok []) :
    ∀ l, (elecLoop q ds l).1 = [] := by
  intro l
  induction l with
  | nil => rfl
  | cons nw rest ih =>
      obtain ⟨name, w⟩ := nw
      simp only [elecLoop, h w]
      simpa using ih

/-- C8 counterexample: address resolution succeeds — the resolver turns a
candidate with a valid bbl but no borough into a bundle with a truthy bin —
and the electrical transport fails, yet no report is assembled and an
uncaught AttributeError escapes the pipeline: the bundle's truthy block and
`None` borough make line 203 raise before any electrical query is issued. -/
theorem pipeline_crash_counterexample :
    get_property_identifiers "1 X ST" [featC8] = some idsCrash ∧
    truthy idsCrash.bin = true ∧
    truthy idsCrash.block = true ∧
    idsCrash.borough = none ∧
    run_pipeline oracleC8fail (some idsCrash) = PipelineOutcome.uncaught
      "AttributeError: 'NoneType' object has no attribute 'upper'" := by
  refine ⟨by rfl, by decide, by decide, by rfl, by decide⟩

/-- C8 amended: for bundles that do not hit the borough crash (no truthy
block with a `None` borough), a transport-level failure of every registry
call for the electrical-permits category yields an empty record list for
that category only — the other four categories' results are exactly what
their own queries produce (replacing the failing transport by any transport
that agrees on the other datasets changes nothing) and a full report with
`success = true` is still assembled. On the excluded bundles the pipeline
instead dies of an uncaught AttributeError (see the counterexample), so the
claim's "no exception escapes whenever resolution succeeded" does not hold
in general. -/
theorem category_failure_isolated (t1 t2 : Oracle) (ids : Identifiers)
    (hb : truthy ids.bin = true)
    (hnc : ¬(truthy ids.block = true ∧ ids.borough = none))
    (hfail : ∀ w, ∃ e, t1 "electrical_permits" w = Except.error e)
    (hagree : ∀ ds w, ds ≠ "electrical_permits" → t1 ds w = t2 ds w) :
    ∃ d1 d2,
      get_comprehensive_compliance_data (mkQuery t1) ids = Except.ok d1 ∧
      get_comprehensive_compliance_data (mkQuery t2) ids = Except.ok d2 ∧
      d1.electrical_permits = [] ∧
      d1.hpd_violations = d2.hpd_violations ∧
      d1.dob_violations = d2.dob_violations ∧
      d1.elevator_data = d2.elevator_data ∧
      d1.boiler_data = d2.boiler_data ∧
      run_pipeline t1 (some ids) = PipelineOutcome.report (build_report ids d1) ∧
      (build_report ids d1).success = true := by
  have hagree' : ∀ ds w, ds ≠ "electrical_permits" →
      mkQuery t1 ds w = mkQuery t2 ds w := by
    intro ds w hds
    unfold mkQuery get_data
    rw [hagree ds w hds]
  have hElecEmpty : ∀ w, mkQuery t1 "electrical_permits" w = Except.ok [] := by
    intro w
    obtain ⟨e, he⟩ := hfail w
    unfold mkQuery get_data
    rw [he]
  obtain ⟨strats, hes⟩ := elecStrategies_ok ids hnc
  have hok1 := comprehensive_traced_of_elec_ok (mkQuery t1) ids hb strats hes
  have hok2 := comprehensive_traced_of_elec_ok (mkQuery t2) ids hb strats hes
  have hd1 : get_comprehensive_compliance_data (mkQuery t1) ids = Except.ok
      { hpd_violations := (stratLoop (mkQuery t1) "hpd_violations" ids.bin (hpdStrategies ids)).1
        dob_violations := (stratLoop (mkQuery t1) "dob_violations" ids.bin (dobStrategies ids)).1
        elevator_data := (elevatorFetch (mkQuery t1) ids).1
        boiler_data := (boilerFetch (mkQuery t1) ids).1
        electrical_permits := (elecLoop (mkQuery t1) "electrical_permits" strats).1 } := by
    unfold get_comprehensive_compliance_data
    rw [hok1]
  have hd2 : get_comprehensive_compliance_data (mkQuery t2) ids = Except.ok
      { hpd_violations := (stratLoop (mkQuery t2) "hpd_violations" ids.bin (hpdStrategies ids)).1
        dob_violations := (stratLoop (mkQuery t2) "dob_violations" ids.bin (dobStrategies ids)).1
        elevator_data := (elevatorFetch (mkQuery t2) ids).1
        boiler_data := (boilerFetch (mkQuery t2) ids).1
        electrical_permits := (elecLoop (mkQuery t2) "electrical_permits" strats).1 } := by
    unfold get_comprehensive_compliance_data
    rw [hok2]
  refine ⟨_, _, hd1, hd2, ?_, ?_, ?_, ?_, ?_, ?_, rfl⟩
  · exact elecLoop_all_empty (mkQuery t1) "electrical_permits" hElecEmpty _
  · exact congrArg Prod.fst (stratLoop_congr (mkQuery t1) (mkQuery t2)
      "hpd_violations" ids.bin (fun w => hagree' _ w (by decide)) _)
  · exact congrArg Prod.fst (stratLoop_congr (mkQuery t1) (mkQuery t2)
      "dob_violations" ids.bin (fun w => hagree' _ w (by decide)) _)
  · unfold elevatorFetch
    rw [hb, if_pos rfl, hagree' "elevator_inspections" _ (by decide)]
    simp
  · unfold boilerFetch
    rw [hb, if_pos rfl, hagree' "boiler_inspections" _ (by decide)]
    simp
  · unfold run_pipeline
    dsimp only
    rw [hb]
    simp only [Bool.true_eq_false, if_false]
    rw [hd1]

theorem category_failure_isolated_witness :
    ∃ d1 d2,
      get_comprehensive_compliance_data (mkQuery oracleC8fail) idsW1 = Except.ok d1 ∧
      get_comprehensive_compliance_data (mkQuery oracleC8ok) idsW1 = Except.ok d2 ∧
      d1.electrical_permits = [] ∧
      d1.hpd_violations = d2.hpd_violations ∧
      d1.dob_violations = d2.dob_violations ∧
      d1.elevator_data = d2.elevator_data ∧
      d1.boiler_data = d2.boiler_data ∧
      run_pipeline oracleC8fail (some idsW1) =
        PipelineOutcome.report (build_report idsW1 d1) ∧
      (build_report idsW1 d1).success = true :=
  category_failure_isolated oracleC8fail oracleC8ok idsW1 (by decide) (by decide)
    (fun w => ⟨"timed out", by rfl⟩)
    (fun ds w hds => by
      unfold oracleC8fail oracleC8ok
      rw [if_neg hds, if_neg hds])
